import Mathlib

/-!
Verification of the retrieval-and-answer core of a compliance Q&A backend:
the vector similarity scorer, the top-K document search pipeline, the
retrieval-augmented Q&A orchestrator with its append-only audit trail,
training-pair extraction from the audit trail, and the image/PDF question
controllers.

The similarity scorer, search engine and Q&A orchestrator are modelled from
the specification (their module, `app/controllers/vector_search.py` and the
retrieval `qa` controller, is not among the repository's files; only their
tests are).  The training-pair extraction is translated from
`scripts/fine_tune_gemini.py`, and the image/PDF controllers from
`app/controllers/qa.py`.
-/

namespace GenAI

noncomputable section

open Classical

/-! ## Similarity scorer -/

/-- Modelled from the spec: the dot product of two numeric vectors, as used
by the Similarity Scorer (the absent `_cosine_similarity`). -/
def dot (v w : List ℝ) : ℝ := (List.zipWith (fun a b => a * b) v w).sum

/-- Modelled from the spec: the squared magnitude of a vector. -/
def normSq (v : List ℝ) : ℝ := dot v v

/-- Modelled from the spec: the magnitude (Euclidean norm) of a vector. -/
def magnitude (v : List ℝ) : ℝ := Real.sqrt (normSq v)

/-- Modelled from the spec: the error raised when the two input vectors of
the Similarity Scorer differ in length. -/
inductive SimError where
  | dimensionMismatch
deriving DecidableEq

/-- Modelled from the spec: cosine similarity of two equal-dimension vectors,
defined as 0 when either vector has zero magnitude, and otherwise as the dot
product divided by the product of the two magnitudes, clamped below at 0. -/
def cosSim (v w : List ℝ) : ℝ :=
  if magnitude v = 0 ∨ magnitude w = 0 then 0
  else max 0 (dot v w / (magnitude v * magnitude w))

/-- Modelled from the spec: the Similarity Scorer.  Fails with a
dimension-mismatch error if the input vectors differ in length, and otherwise
returns the clamped cosine similarity. -/
def cosine_similarity (v w : List ℝ) : Except SimError ℝ :=
  if v.length = w.length then Except.ok (cosSim v w)
  else Except.error SimError.dimensionMismatch

/-! ## Vector search engine -/

/-- Modelled from the spec: a persisted document with its embedding. -/
structure Document where
  id : String
  filename : String
  text_content : String
  embedding : List ℝ

/-- Modelled from the spec: a search result derived from one candidate
document. -/
structure SearchResult where
  doc_id : String
  filename : String
  similarity_score : ℝ
  excerpt : String

/-- Modelled from the spec: the tunable bound on excerpt length (first N
characters of the document's text content). -/
def EXCERPT_LENGTH : ℕ := 200

/-- Modelled from the spec: whether a document passes the optional
`document_ids` restriction of `search_documents`. -/
def matchesIds (ids : Option (List String)) (d : Document) : Prop :=
  match ids with
  | none => True
  | some l => d.id ∈ l

/-- Modelled from the spec: step 2 of `search_documents` — the candidate
documents, those with an embedding of the expected dimension, optionally
restricted to `document_ids`. -/
def eligible (dim : ℕ) (ids : Option (List String)) (docs : List Document) :
    List Document :=
  docs.filter (fun d => decide (d.embedding.length = dim ∧ matchesIds ids d))

/-- Modelled from the spec: step 3 — each candidate paired with its
similarity to the query embedding. -/
def scored (qe : List ℝ) (ids : Option (List String)) (docs : List Document) :
    List (Document × ℝ) :=
  (eligible qe.length ids docs).map (fun d => (d, cosSim qe d.embedding))

/-- Modelled from the spec: step 4 — candidates whose similarity is strictly
below the threshold are discarded. -/
def kept (qe : List ℝ) (ids : Option (List String)) (t : ℝ)
    (docs : List Document) : List (Document × ℝ) :=
  (scored qe ids docs).filter (fun p => decide (t ≤ p.2))

/-- Modelled from the spec: the descending-similarity ordering used by the
stable sort of step 5. -/
def simDesc (p q : Document × ℝ) : Prop := q.2 ≤ p.2

instance : IsTotal (Document × ℝ) simDesc := ⟨fun p q => le_total q.2 p.2⟩

instance : IsTrans (Document × ℝ) simDesc :=
  ⟨fun _ _ _ h1 h2 => le_trans h2 h1⟩

/-- Modelled from the spec: step 5 — remaining candidates sorted by
similarity descending with a stable sort (insertion sort with a non-strict
comparison is stable). -/
def ranked (qe : List ℝ) (ids : Option (List String)) (t : ℝ)
    (docs : List Document) : List (Document × ℝ) :=
  List.insertionSort simDesc (kept qe ids t docs)

/-- Modelled from the spec: step 7 — a scored candidate rendered as a Search
Result carrying a bounded excerpt of the document's text content. -/
def toResult (p : Document × ℝ) : SearchResult :=
  { doc_id := p.1.id
    filename := p.1.filename
    similarity_score := p.2
    excerpt := p.1.text_content.take EXCERPT_LENGTH }

/-- Modelled from the spec: `search_documents` — score the eligible
candidates against the query embedding, discard those strictly below the
threshold, sort by similarity descending (stable), truncate to `top_k`, and
render the ordered Search Results.  The query embedding stands for the
Embedding Provider's output for the query text. -/
def search_documents (qe : List ℝ) (docs : List Document) (top_k : ℕ)
    (similarity_threshold : ℝ) (document_ids : Option (List String)) :
    List SearchResult :=
  ((ranked qe document_ids similarity_threshold docs).take top_k).map toResult

/-! ## Retrieval-augmented Q&A orchestrator and audit trail -/

/-- Modelled from the spec: an append-only audit record of one Q&A
interaction. -/
structure AuditEntry where
  event_type : String
  timestamp : ℕ
  user_id : Option String
  query : String
  answer : String
  confidence : ℝ
  num_citations : ℕ

/-- Modelled from the spec: the Q&A response returned to the caller. -/
structure QAResponse where
  query : String
  answer : String
  confidence : ℝ
  citations : List SearchResult
  model_used : String
  processing_time_ms : ℕ

/-- Modelled from the spec: a failure of the Generative Model Adapter,
propagated unmodified to the caller. -/
inductive AdapterError where
  | failure (msg : String)

/-- Modelled from the spec: the fixed answer used when no document clears
the similarity threshold. -/
def NO_RELEVANT_ANSWER : String :=
  "I could not find relevant information in the documents to answer this question."

/-- Modelled from the spec: the context payload assembled from the retrieved
documents' excerpts. -/
def contextOf (results : List SearchResult) : String :=
  String.intercalate "\n\n" (results.map (fun r => r.excerpt))

/-- Modelled from the spec: `answer_query`.  It retrieves ranked results for
the query; with zero results it builds the fixed no-relevant-information
response with confidence 0 and does not consult the adapter; otherwise it
calls the Generative Model Adapter on the query and assembled context and
mirrors the adapter's answer and confidence.  On every completed call it
appends exactly one audit entry with event type "qa_query"; when the adapter
fails, the error propagates and the audit trail is left unchanged.  The
adapter is passed as a function, the document snapshot, clock readings and
the current audit trail as explicit arguments. -/
def answer_query (adapter : String → String → Except AdapterError (String × ℝ))
    (model_id : String) (qe : List ℝ) (docs : List Document) (top_k : ℕ)
    (similarity_threshold : ℝ) (include_sources : Bool)
    (user_id : Option String) (now elapsed_ms : ℕ) (query : String)
    (log : List AuditEntry) :
    Except AdapterError QAResponse × List AuditEntry :=
  let results := search_documents qe docs top_k similarity_threshold none
  if results = [] then
    (Except.ok
      { query := query
        answer := NO_RELEVANT_ANSWER
        confidence := 0
        citations := []
        model_used := model_id
        processing_time_ms := elapsed_ms },
     log ++ [{ event_type := "qa_query"
               timestamp := now
               user_id := user_id
               query := query
               answer := NO_RELEVANT_ANSWER
               confidence := 0
               num_citations := 0 }])
  else
    match adapter query (contextOf results) with
    | Except.error e => (Except.error e, log)
    | Except.ok (ans, conf) =>
      (Except.ok
        { query := query
          answer := ans
          confidence := conf
          citations := if include_sources then results else []
          model_used := model_id
          processing_time_ms := elapsed_ms },
       log ++ [{ event_type := "qa_query"
                 timestamp := now
                 user_id := user_id
                 query := query
                 answer := ans
                 confidence := conf
                 num_citations := results.length }])

/-! ## Training-pair extraction (from `scripts/fine_tune_gemini.py`) -/

/-- One training example as built by `GeminiFineTuner.extract_training_data`:
a user/assistant message pair plus metadata. -/
structure TrainingExample where
  user_content : String
  assistant_content : String
  confidence : ℝ
  timestamp : ℕ
  num_citations : ℕ

/-- The audit-log filter of `extract_training_data`: event type "qa_query"
and confidence at least 0.7. -/
def qualifies (e : AuditEntry) : Prop :=
  e.event_type = "qa_query" ∧ (0.7 : ℝ) ≤ e.confidence

/-- One audit entry formatted as a training example. -/
def toExample (e : AuditEntry) : TrainingExample :=
  { user_content := e.query
    assistant_content := e.answer
    confidence := e.confidence
    timestamp := e.timestamp
    num_citations := e.num_citations }

/-- `GeminiFineTuner.extract_training_data`: fetch the audit entries with
event type "qa_query" and confidence at least 0.7, most recent first, and
format each as one training example.  A read-only scan: the audit trail is
not part of the result state. -/
def extract_training_data (logs : List AuditEntry) : List TrainingExample :=
  (List.insertionSort (fun a b : AuditEntry => b.timestamp ≤ a.timestamp)
      (logs.filter (fun e => decide (qualifies e)))).map toExample

/-! ## Image and PDF question controllers (from `app/controllers/qa.py`) -/

/-- An HTTP error as raised by the controller (`HTTPException`). -/
structure HTTPError where
  status_code : ℕ
  detail : String
deriving DecidableEq

/-- The external calls `ask_image_question` can make, in order: decoding the
uploaded image and invoking the generative model. -/
inductive ImageCall where
  | decodeImage
  | modelCall
deriving DecidableEq

/-- `ALLOWED_IMAGE_EXTENSIONS` from `app/controllers/qa.py`. -/
def ALLOWED_IMAGE_EXTENSIONS : List String :=
  [".jpg", ".jpeg", ".png", ".gif", ".bmp", ".webp"]

/-- The characters of a filename lowercased, as by `filename.lower()`. -/
def lowerChars (filename : String) : List Char :=
  filename.data.map Char.toLower

/-- The filename validation of `ask_image_question`: the lowercased filename
must end with one of the allowed extensions. -/
def hasAllowedImageExtension (filename : String) : Bool :=
  ALLOWED_IMAGE_EXTENSIONS.any (fun ext => ext.data.isSuffixOf (lowerChars filename))

/-- The response dictionary of `ask_image_question`. -/
structure ImageAnswer where
  question : String
  answer : String
  model : String
  filename : String
  user_id : String
deriving DecidableEq

/-- `QAController.ask_image_question`: validate the filename extension,
raising HTTP 400 before any other work when it is not an allowed image type;
otherwise decode the image and invoke the model.  The model's answer is an
argument (the Gemini service is an external collaborator); the second
component records which external calls were made, in order. -/
def ask_image_question (modelAnswer : String) (filename question user_id : String) :
    Except HTTPError ImageAnswer × List ImageCall :=
  if hasAllowedImageExtension filename then
    (Except.ok
      { question := question
        answer := modelAnswer
        model := "gemini-2.0-flash-exp"
        filename := filename
        user_id := user_id },
     [ImageCall.decodeImage, ImageCall.modelCall])
  else
    (Except.error
      { status_code := 400
        detail := "Invalid file type. Allowed: " ++
          String.intercalate ", " ALLOWED_IMAGE_EXTENSIONS },
     [])

/-- A parsed PDF page with its media-box dimensions in points
(`page.rect`). -/
structure PDFPage where
  width : ℚ
  height : ℚ
deriving DecidableEq

/-- A rendered page image, described by the zoom matrix applied and the
resulting pixel dimensions (before rounding). -/
structure PageImage where
  zoom_x : ℚ
  zoom_y : ℚ
  width : ℚ
  height : ℚ
deriving DecidableEq

/-- `TARGET_WIDTH_8K` from `app/controllers/qa.py`: 8K resolution width. -/
def TARGET_WIDTH_8K : ℚ := 7680

/-- One loop iteration of `_convert_pdf_to_8k_images`: zoom the page equally
in both directions by `TARGET_WIDTH_8K / page.rect.width` and render it. -/
def renderPage (p : PDFPage) : PageImage :=
  let zoom_x := TARGET_WIDTH_8K / p.width
  let zoom_y := zoom_x
  { zoom_x := zoom_x
    zoom_y := zoom_y
    width := p.width * zoom_x
    height := p.height * zoom_y }

/-- `QAController._convert_pdf_to_8k_images`: render every page of the PDF,
in page order. -/
def convert_pdf_to_8k_images (pdf : List PDFPage) : List PageImage :=
  pdf.map renderPage

/-- The response dictionary of `ask_pdf_question`. -/
structure PDFAnswer where
  question : String
  answer : String
  model : String
  filename : String
  pages : ℕ
  resolution : String
  user_id : String
deriving DecidableEq

/-- `QAController.ask_pdf_question`: validate the filename, convert the PDF
to one 8K image per page, invoke the model, and report the number of
converted images as the page count.  The parsed PDF and the model's answer
stand for the external PDF library and Gemini service. -/
def ask_pdf_question (modelAnswer : String) (pdf : List PDFPage)
    (filename question user_id : String) : Except HTTPError PDFAnswer :=
  if ".pdf".data.isSuffixOf (lowerChars filename) then
    Except.ok
      { question := question
        answer := modelAnswer
        model := "gemini-2.0-flash-exp"
        filename := filename
        pages := (convert_pdf_to_8k_images pdf).length
        resolution := "8K Ultra HD (7680px width)"
        user_id := user_id }
  else Except.error { status_code := 400, detail := "File must be a PDF" }

/-! ## Basic facts about the dot product and magnitudes -/

theorem dot_nil_left (w : List ℝ) : dot [] w = 0 := rfl

theorem dot_nil_right (v : List ℝ) : dot v [] = 0 := by
  simp [dot]

theorem dot_cons (a b : ℝ) (v w : List ℝ) :
    dot (a :: v) (b :: w) = a * b + dot v w := by
  simp [dot]

theorem normSq_nil : normSq [] = 0 := rfl

theorem normSq_cons (a : ℝ) (v : List ℝ) :
    normSq (a :: v) = a * a + normSq v := dot_cons a a v v

theorem normSq_nonneg (v : List ℝ) : 0 ≤ normSq v := by
  induction v with
  | nil => simp [normSq_nil]
  | cons a v ih =>
    have := mul_self_nonneg a
    rw [normSq_cons]; linarith

/-- Cauchy–Schwarz for the list dot product, in squared form. -/
theorem dot_sq_le (v w : List ℝ) : dot v w ^ 2 ≤ normSq v * normSq w := by
  induction v generalizing w with
  | nil =>
    simp [dot_nil_left, normSq_nil]
  | cons a v ih =>
    cases w with
    | nil =>
      simp [dot_nil_right, normSq_nil]
    | cons b w =>
      have h := ih w
      have hv := normSq_nonneg v
      have hw := normSq_nonneg w
      rw [dot_cons, normSq_cons, normSq_cons]
      by_cases hnv : normSq v = 0
      · have hd2 : dot v w ^ 2 ≤ 0 := by rw [hnv] at h; simpa using h
        have hd : dot v w = 0 := by
          have hge := sq_nonneg (dot v w)
          have hz : dot v w ^ 2 = 0 := le_antisymm hd2 hge
          exact pow_eq_zero_iff (two_ne_zero) |>.1 hz
        rw [hnv, hd]
        nlinarith [mul_nonneg (mul_self_nonneg a) hw]
      · have hpos : 0 < normSq v := lt_of_le_of_ne hv (Ne.symm hnv)
        nlinarith [sq_nonneg (a * dot v w - b * normSq v),
          mul_nonneg (sq_nonneg a) (sub_nonneg.2 h),
          mul_nonneg hv (sub_nonneg.2 h)]

theorem magnitude_nonneg (v : List ℝ) : 0 ≤ magnitude v := Real.sqrt_nonneg _

theorem magnitude_mul_self (v : List ℝ) : magnitude v * magnitude v = normSq v :=
  Real.mul_self_sqrt (normSq_nonneg v)

theorem dot_le_magnitude_mul (v w : List ℝ) :
    dot v w ≤ magnitude v * magnitude w := by
  have h1 : dot v w ≤ |dot v w| := le_abs_self _
  have h2 : |dot v w| = Real.sqrt (dot v w ^ 2) := (Real.sqrt_sq_eq_abs _).symm
  have h3 : Real.sqrt (dot v w ^ 2) ≤ Real.sqrt (normSq v * normSq w) :=
    Real.sqrt_le_sqrt (dot_sq_le v w)
  have h4 : Real.sqrt (normSq v * normSq w) = magnitude v * magnitude w :=
    Real.sqrt_mul (normSq_nonneg v) (normSq w)
  calc dot v w ≤ |dot v w| := h1
    _ = Real.sqrt (dot v w ^ 2) := h2
    _ ≤ Real.sqrt (normSq v * normSq w) := h3
    _ = magnitude v * magnitude w := h4

theorem cosSim_nonneg (v w : List ℝ) : 0 ≤ cosSim v w := by
  unfold cosSim
  split
  · exact le_refl 0
  · exact le_max_left 0 _

theorem cosSim_le_one (v w : List ℝ) : cosSim v w ≤ 1 := by
  unfold cosSim
  split
  · exact zero_le_one
  · rename_i h
    push_neg at h
    have hv : 0 < magnitude v := lt_of_le_of_ne (magnitude_nonneg v) (Ne.symm h.1)
    have hw : 0 < magnitude w := lt_of_le_of_ne (magnitude_nonneg w) (Ne.symm h.2)
    have hpos : 0 < magnitude v * magnitude w := mul_pos hv hw
    have : dot v w / (magnitude v * magnitude w) ≤ 1 :=
      (div_le_one hpos).2 (dot_le_magnitude_mul v w)
    exact max_le zero_le_one this

theorem magnitude_eq_zero_iff (v : List ℝ) : magnitude v = 0 ↔ normSq v = 0 := by
  unfold magnitude
  constructor
  · intro h
    exact Real.sqrt_eq_zero (normSq_nonneg v) |>.1 h
  · intro h
    rw [h, Real.sqrt_zero]

theorem cosSim_zero_left (v w : List ℝ) (h : magnitude v = 0) : cosSim v w = 0 := by
  unfold cosSim
  rw [if_pos (Or.inl h)]

theorem cosSim_zero_right (v w : List ℝ) (h : magnitude w = 0) : cosSim v w = 0 := by
  unfold cosSim
  rw [if_pos (Or.inr h)]

theorem cosSim_self (v : List ℝ) (h : normSq v ≠ 0) : cosSim v v = 1 := by
  have hm : magnitude v ≠ 0 := fun hc => h ((magnitude_eq_zero_iff v).1 hc)
  unfold cosSim
  rw [if_neg (by tauto)]
  rw [show dot v v = normSq v from rfl, magnitude_mul_self, div_self h]
  exact max_eq_right zero_le_one

theorem dot_map_neg_right (v w : List ℝ) :
    dot v (w.map (fun x => -x)) = -dot v w := by
  induction v generalizing w with
  | nil => simp [dot_nil_left]
  | cons a v ih =>
    cases w with
    | nil => simp [dot_nil_right]
    | cons b w =>
      simp only [List.map_cons, dot_cons, ih]
      ring

theorem normSq_map_neg (v : List ℝ) :
    normSq (v.map (fun x => -x)) = normSq v := by
  induction v with
  | nil => simp [normSq_nil]
  | cons a v ih =>
    simp only [List.map_cons, normSq_cons, ih]
    ring_nf

theorem cosSim_neg_self (v : List ℝ) : cosSim v (v.map (fun x => -x)) = 0 := by
  by_cases h : magnitude v = 0
  · exact cosSim_zero_left _ _ h
  · have hnorm : normSq v ≠ 0 := fun hc => h (by rw [magnitude, hc, Real.sqrt_zero])
    have hmn : magnitude (v.map (fun x => -x)) = magnitude v := by
      unfold magnitude
      rw [normSq_map_neg]
    unfold cosSim
    rw [if_neg (by rw [hmn]; tauto)]
    rw [dot_map_neg_right, hmn, magnitude_mul_self]
    have hneg : -normSq v / normSq v = -1 := by
      rw [neg_div, div_self hnorm]
    rw [show dot v v = normSq v from rfl, hneg]
    simp

/-! ## Claim C1: the similarity scorer -/

/-- C1: on two vectors of equal dimension the Similarity Scorer returns the
cosine similarity (dot product over the product of magnitudes) clamped below
at 0; it returns exactly 0 when either vector has zero magnitude; every
value it returns lies in [0, 1]; and for every vector of nonzero magnitude
it scores the vector against itself as 1 and against its negation as 0. -/
theorem cosine_similarity_spec (v w : List ℝ) (h : v.length = w.length) :
    (magnitude v ≠ 0 → magnitude w ≠ 0 →
      cosine_similarity v w =
        Except.ok (max 0 (dot v w / (magnitude v * magnitude w)))) ∧
    (magnitude v = 0 ∨ magnitude w = 0 →
      cosine_similarity v w = Except.ok 0) ∧
    (∀ r : ℝ, cosine_similarity v w = Except.ok r → 0 ≤ r ∧ r ≤ 1) ∧
    (normSq v ≠ 0 → cosine_similarity v v = Except.ok 1) ∧
    cosine_similarity v (v.map (fun x => -x)) = Except.ok 0 := by
  have hcs : cosine_similarity v w = Except.ok (cosSim v w) := by
    unfold cosine_similarity
    rw [if_pos h]
  refine ⟨?_, ?_, ?_, ?_, ?_⟩
  · intro hv hw
    rw [hcs]
    unfold cosSim
    rw [if_neg (by tauto)]
  · intro h0
    rw [hcs]
    rcases h0 with h0 | h0
    · rw [cosSim_zero_left v w h0]
    · rw [cosSim_zero_right v w h0]
  · intro r hr
    rw [hcs] at hr
    have := Except.ok.inj hr
    rw [← this]
    exact ⟨cosSim_nonneg v w, cosSim_le_one v w⟩
  · intro hn
    unfold cosine_similarity
    rw [if_pos rfl, cosSim_self v hn]
  · unfold cosine_similarity
    rw [if_pos (by simp), cosSim_neg_self]

/-- Witness for C1 at the concrete one-dimensional vector `[1]`. -/
theorem cosine_similarity_spec_witness :
    (magnitude [(1 : ℝ)] ≠ 0 → magnitude [(1 : ℝ)] ≠ 0 →
      cosine_similarity [(1 : ℝ)] [(1 : ℝ)] =
        Except.ok (max 0 (dot [(1 : ℝ)] [(1 : ℝ)] /
          (magnitude [(1 : ℝ)] * magnitude [(1 : ℝ)])))) ∧
    (magnitude [(1 : ℝ)] = 0 ∨ magnitude [(1 : ℝ)] = 0 →
      cosine_similarity [(1 : ℝ)] [(1 : ℝ)] = Except.ok 0) ∧
    (∀ r : ℝ, cosine_similarity [(1 : ℝ)] [(1 : ℝ)] = Except.ok r →
      0 ≤ r ∧ r ≤ 1) ∧
    (normSq [(1 : ℝ)] ≠ 0 →
      cosine_similarity [(1 : ℝ)] [(1 : ℝ)] = Except.ok 1) ∧
    cosine_similarity [(1 : ℝ)] ([(1 : ℝ)].map (fun x => -x)) = Except.ok 0 :=
  cosine_similarity_spec [(1 : ℝ)] [(1 : ℝ)] rfl

/-! ## Claim C8: dimension mismatch -/

/-- C8: on input vectors of differing lengths the Similarity Scorer fails
with the dimension-mismatch error rather than coercing or truncating. -/
theorem cosine_similarity_dimension_mismatch (v w : List ℝ)
    (h : v.length ≠ w.length) :
    cosine_similarity v w = Except.error SimError.dimensionMismatch := by
  unfold cosine_similarity
  rw [if_neg h]

/-- Witness for C8: a two-dimensional against a one-dimensional vector. -/
theorem cosine_similarity_dimension_mismatch_witness :
    cosine_similarity [(1 : ℝ), 0] [(1 : ℝ)] =
      Except.error SimError.dimensionMismatch :=
  cosine_similarity_dimension_mismatch [(1 : ℝ), 0] [(1 : ℝ)] (by simp)

/-! ## Claims C2, C3, C6: the search pipeline -/

theorem mem_kept {qe : List ℝ} {ids : Option (List String)} {t : ℝ}
    {docs : List Document} {p : Document × ℝ} (hp : p ∈ kept qe ids t docs) :
    t ≤ p.2 := by
  unfold kept at hp
  rw [List.mem_filter] at hp
  exact of_decide_eq_true hp.2

/-- C2: `search_documents` returns at most `top_k` results, every returned
result's similarity score is at least the threshold, and when no candidate
clears the threshold the result is the empty list (a value, not an error). -/
theorem search_documents_guarantees (qe : List ℝ) (docs : List Document)
    (top_k : ℕ) (t : ℝ) (ids : Option (List String)) :
    (search_documents qe docs top_k t ids).length ≤ top_k ∧
    (∀ r ∈ search_documents qe docs top_k t ids, t ≤ r.similarity_score) ∧
    ((∀ d ∈ docs, cosSim qe d.embedding < t) →
      search_documents qe docs top_k t ids = []) := by
  refine ⟨?_, ?_, ?_⟩
  · unfold search_documents
    rw [List.length_map, List.length_take]
    exact min_le_left _ _
  · intro r hr
    unfold search_documents at hr
    rw [List.mem_map] at hr
    obtain ⟨p, hp, rfl⟩ := hr
    have hp2 : p ∈ ranked qe ids t docs := List.mem_of_mem_take hp
    have hp3 : p ∈ kept qe ids t docs := by
      unfold ranked at hp2
      exact (List.mem_insertionSort simDesc).1 hp2
    exact mem_kept hp3
  · intro hall
    have hkept : kept qe ids t docs = [] := by
      unfold kept
      rw [List.filter_eq_nil_iff]
      intro p hp
      unfold scored at hp
      rw [List.mem_map] at hp
      obtain ⟨d, hd, rfl⟩ := hp
      have hdocs : d ∈ docs := by
        unfold eligible at hd
        exact (List.mem_filter.1 hd).1
      simp only [decide_eq_true_eq]
      exact not_le.2 (hall d hdocs)
    unfold search_documents ranked
    rw [hkept]
    simp [List.insertionSort]

/-- Stability of the insertion sort used in step 5: for every score value,
filtering the sorted list to that score gives exactly the filtered input, in
input order. -/
theorem filter_insertionSort_score (l : List (Document × ℝ)) (s : ℝ) :
    (List.insertionSort simDesc l).filter (fun p => decide (p.2 = s)) =
      l.filter (fun p => decide (p.2 = s)) := by
  induction l with
  | nil => rfl
  | cons a l ih =>
    show (List.orderedInsert simDesc a (List.insertionSort simDesc l)).filter _ = _
    rw [List.orderedInsert_eq_take_drop, List.filter_append, List.filter_cons]
    by_cases ha : a.2 = s
    · have htw : ((List.insertionSort simDesc l).takeWhile
          (fun b => decide ¬simDesc a b)).filter (fun p => decide (p.2 = s)) = [] := by
        rw [List.filter_eq_nil_iff]
        intro b hb
        have hcb := List.mem_takeWhile_imp hb
        have : ¬ simDesc a b := of_decide_eq_true hcb
        have hlt : a.2 < b.2 := not_le.1 this
        simp only [decide_eq_true_eq]
        intro hbs
        rw [hbs, ← ha] at hlt
        exact lt_irrefl _ hlt
      have hsplit : ((List.insertionSort simDesc l).takeWhile
            (fun b => decide ¬simDesc a b)).filter (fun p => decide (p.2 = s)) ++
          ((List.insertionSort simDesc l).dropWhile
            (fun b => decide ¬simDesc a b)).filter (fun p => decide (p.2 = s)) =
          (List.insertionSort simDesc l).filter (fun p => decide (p.2 = s)) := by
        rw [← List.filter_append, List.takeWhile_append_dropWhile]
      rw [if_pos (by simp [ha]), List.filter_cons, if_pos (by simp [ha])]
      rw [htw, List.nil_append]
      rw [htw, List.nil_append] at hsplit
      rw [hsplit, ih]
    · rw [if_neg (by simp [ha]), List.filter_cons, if_neg (by simp [ha])]
      rw [← List.filter_append, List.takeWhile_append_dropWhile, ih]

/-- C3: the results of `search_documents` are sorted by similarity score
descending, and the sort is stable — for every score value, the equal-score
candidates of the ranked list appear exactly in their order in the filtered
scan (`kept`).  The pipeline is a pure function of the document snapshot. -/
theorem search_documents_sorted_stable (qe : List ℝ) (docs : List Document)
    (top_k : ℕ) (t : ℝ) (ids : Option (List String)) :
    List.Sorted (fun a b : SearchResult => b.similarity_score ≤ a.similarity_score)
      (search_documents qe docs top_k t ids) ∧
    (∀ s : ℝ, (ranked qe ids t docs).filter (fun p => decide (p.2 = s)) =
      (kept qe ids t docs).filter (fun p => decide (p.2 = s))) := by
  constructor
  · have h1 : List.Sorted simDesc (ranked qe ids t docs) :=
      List.sorted_insertionSort simDesc (kept qe ids t docs)
    have h2 : List.Sorted simDesc ((ranked qe ids t docs).take top_k) :=
      List.Pairwise.sublist (List.take_sublist top_k _) h1
    unfold search_documents
    exact List.Pairwise.map toResult (fun a b hab => hab) h2
  · intro s
    exact filter_insertionSort_score (kept qe ids t docs) s

theorem length_search_documents (qe : List ℝ) (docs : List Document)
    (top_k : ℕ) (t : ℝ) (ids : Option (List String)) :
    (search_documents qe docs top_k t ids).length =
      min top_k (kept qe ids t docs).length := by
  unfold search_documents ranked
  rw [List.length_map, List.length_take,
    (List.perm_insertionSort simDesc (kept qe ids t docs)).length_eq]

theorem kept_length_antitone (qe : List ℝ) (ids : Option (List String))
    (docs : List Document) {t1 t2 : ℝ} (h : t1 ≤ t2) :
    (kept qe ids t2 docs).length ≤ (kept qe ids t1 docs).length := by
  unfold kept
  refine List.Sublist.length_le (List.monotone_filter_right _ ?_)
  intro p hp
  have h2 : t2 ≤ p.2 := of_decide_eq_true hp
  exact decide_eq_true (le_trans h h2)

/-- C6: for a fixed query embedding and document set, raising the similarity
threshold never increases the number of results of `search_documents`. -/
theorem search_documents_threshold_monotone (qe : List ℝ) (docs : List Document)
    (top_k : ℕ) (ids : Option (List String)) (t1 t2 : ℝ) (h : t1 ≤ t2) :
    (search_documents qe docs top_k t2 ids).length ≤
      (search_documents qe docs top_k t1 ids).length := by
  rw [length_search_documents, length_search_documents]
  exact min_le_min le_rfl (kept_length_antitone qe ids docs h)

/-- Witness for C6 at thresholds 0 ≤ 1 over an empty document store. -/
theorem search_documents_threshold_monotone_witness :
    (search_documents [] [] 5 1 none).length ≤
      (search_documents [] [] 5 0 none).length :=
  search_documents_threshold_monotone [] [] 5 none 0 1 (by norm_num)

/-! ## Claim C5: the audit trail of `answer_query` -/

/-- C5: every completed `answer_query` call (the zero-result case included)
appends exactly one audit entry with event type "qa_query" carrying the
query, final answer, confidence, citation count and user id; when the
adapter fails, the error propagates and the audit trail is unchanged; and
the existing entries are always preserved as a prefix (never updated or
deleted). -/
theorem answer_query_audit (adapter : String → String → Except AdapterError (String × ℝ))
    (model_id : String) (qe : List ℝ) (docs : List Document) (top_k : ℕ)
    (t : ℝ) (inc : Bool) (uid : Option String) (now ems : ℕ) (query : String)
    (log : List AuditEntry) :
    (∀ r : QAResponse,
      (answer_query adapter model_id qe docs top_k t inc uid now ems query log).1 =
          Except.ok r →
      (answer_query adapter model_id qe docs top_k t inc uid now ems query log).2 =
        log ++ [{ event_type := "qa_query", timestamp := now, user_id := uid,
                  query := query, answer := r.answer, confidence := r.confidence,
                  num_citations := (search_documents qe docs top_k t none).length }]) ∧
    (∀ e : AdapterError,
      (answer_query adapter model_id qe docs top_k t inc uid now ems query log).1 =
          Except.error e →
      (answer_query adapter model_id qe docs top_k t inc uid now ems query log).2 = log ∧
      search_documents qe docs top_k t none ≠ [] ∧
      adapter query (contextOf (search_documents qe docs top_k t none)) =
        Except.error e) ∧
    log <+: (answer_query adapter model_id qe docs top_k t inc uid now ems query log).2 := by
  by_cases hres : search_documents qe docs top_k t none = []
  · refine ⟨?_, ?_, ?_⟩
    · intro r hr
      simp only [answer_query, hres, if_pos] at hr ⊢
      have := Except.ok.inj hr
      rw [← this]
      simp
    · intro e he
      simp only [answer_query, hres, if_pos] at he
      exact Except.noConfusion he
    · simp only [answer_query, hres, if_pos]
      exact List.prefix_append log _
  · rcases hA : adapter query (contextOf (search_documents qe docs top_k t none)) with e | p
    · refine ⟨?_, ?_, ?_⟩
      · intro r hr
        simp only [answer_query, if_neg hres, hA] at hr
        exact Except.noConfusion hr
      · intro e2 he
        simp only [answer_query, if_neg hres, hA] at he ⊢
        have := Except.error.inj he
        rw [← this]
        exact ⟨trivial, hres, rfl⟩
      · simp only [answer_query, if_neg hres, hA]
        exact List.prefix_refl log
    · obtain ⟨ans, conf⟩ := p
      refine ⟨?_, ?_, ?_⟩
      · intro r hr
        simp only [answer_query, if_neg hres, hA] at hr ⊢
        have := Except.ok.inj hr
        rw [← this]
      · intro e he
        simp only [answer_query, if_neg hres, hA] at he
        exact Except.noConfusion he
      · simp only [answer_query, if_neg hres, hA]
        exact List.prefix_append log _

/-! ## Claim C4: confidence of `answer_query` -/

/-- C4 (amended): when no document clears the threshold, `answer_query`
returns the fixed no-relevant-information answer with confidence exactly 0
and zero citations, without consulting the adapter (any two adapters give
the same call result); when documents are found, the response's confidence
is the adapter's reported confidence unmodified; and every returned
confidence lies in [0, 1] provided the adapter only reports confidences in
[0, 1].  (The confidence can be 0 with documents found, when the adapter
itself reports 0.) -/
theorem answer_query_confidence (adapter : String → String → Except AdapterError (String × ℝ))
    (model_id : String) (qe : List ℝ) (docs : List Document) (top_k : ℕ)
    (t : ℝ) (inc : Bool) (uid : Option String) (now ems : ℕ) (query : String)
    (log : List AuditEntry) :
    (search_documents qe docs top_k t none = [] →
      (answer_query adapter model_id qe docs top_k t inc uid now ems query log).1 =
        Except.ok { query := query, answer := NO_RELEVANT_ANSWER, confidence := 0,
                    citations := [], model_used := model_id,
                    processing_time_ms := ems } ∧
      (∀ adapter2 : String → String → Except AdapterError (String × ℝ),
        answer_query adapter2 model_id qe docs top_k t inc uid now ems query log =
          answer_query adapter model_id qe docs top_k t inc uid now ems query log)) ∧
    (search_documents qe docs top_k t none ≠ [] →
      ∀ ans : String, ∀ conf : ℝ,
        adapter query (contextOf (search_documents qe docs top_k t none)) =
          Except.ok (ans, conf) →
        (answer_query adapter model_id qe docs top_k t inc uid now ems query log).1 =
          Except.ok { query := query, answer := ans, confidence := conf,
                      citations := if inc then search_documents qe docs top_k t none
                                   else [],
                      model_used := model_id, processing_time_ms := ems }) ∧
    (∀ r : QAResponse,
      (answer_query adapter model_id qe docs top_k t inc uid now ems query log).1 =
          Except.ok r →
      (∀ q c : String, ∀ a : String, ∀ cf : ℝ,
        adapter q c = Except.ok (a, cf) → 0 ≤ cf ∧ cf ≤ 1) →
      0 ≤ r.confidence ∧ r.confidence ≤ 1) := by
  refine ⟨?_, ?_, ?_⟩
  · intro hres
    constructor
    · simp only [answer_query, hres, if_pos]
    · intro adapter2
      simp only [answer_query, hres, if_pos]
  · intro hres ans conf hA
    simp only [answer_query, if_neg hres, hA]
  · intro r hr hbound
    by_cases hres : search_documents qe docs top_k t none = []
    · simp only [answer_query, hres, if_pos] at hr
      have := Except.ok.inj hr
      rw [← this]
      norm_num
    · rcases hA : adapter query (contextOf (search_documents qe docs top_k t none))
        with e | p
      · simp only [answer_query, if_neg hres, hA] at hr
        exact Except.noConfusion hr
      · obtain ⟨ans, conf⟩ := p
        simp only [answer_query, if_neg hres, hA] at hr
        have := Except.ok.inj hr
        rw [← this]
        exact hbound query (contextOf (search_documents qe docs top_k t none)) ans conf hA

/-- A concrete document whose embedding matches the query exactly, used to
refute the claimed equivalence of C4. -/
def cexDoc : Document :=
  { id := "doc1"
    filename := "doc1.txt"
    text_content := "GDPR data retention policy"
    embedding := [1] }

theorem cex_search :
    search_documents [(1 : ℝ)] [cexDoc] 5 (1/2) none =
      [{ doc_id := "doc1", filename := "doc1.txt", similarity_score := 1,
         excerpt := ("GDPR data retention policy" : String).take EXCERPT_LENGTH }] := by
  have hns : normSq [(1 : ℝ)] ≠ 0 := by
    rw [normSq_cons, normSq_nil]
    norm_num
  have hcos : cosSim [(1 : ℝ)] cexDoc.embedding = 1 := by
    show cosSim [(1 : ℝ)] [(1 : ℝ)] = 1
    exact cosSim_self _ hns
  have h1 : eligible ([(1 : ℝ)]).length none [cexDoc] = [cexDoc] := by
    unfold eligible
    rw [List.filter_cons, if_pos (decide_eq_true ⟨rfl, trivial⟩), List.filter_nil]
  have h2 : scored [(1 : ℝ)] none [cexDoc] = [(cexDoc, 1)] := by
    unfold scored
    rw [h1, List.map_cons, List.map_nil, hcos]
  have h3 : kept [(1 : ℝ)] none (1/2) [cexDoc] = [(cexDoc, 1)] := by
    unfold kept
    rw [h2, List.filter_cons, if_pos (decide_eq_true (show (1 : ℝ)/2 ≤ ((cexDoc, (1 : ℝ))).2 by norm_num)),
      List.filter_nil]
  unfold search_documents ranked
  rw [h3]
  simp [List.insertionSort, toResult, cexDoc]

/-- Counterexample to C4 as stated: with one document clearing the
threshold and an adapter reporting confidence 0, the response's confidence
is exactly 0 although a retrieved document cleared the similarity
threshold. -/
theorem answer_query_confidence_cex :
    search_documents [(1 : ℝ)] [cexDoc] 5 (1/2) none ≠ [] ∧
    (answer_query (fun _ _ => Except.ok ("Grounded answer", (0 : ℝ))) "m"
        [(1 : ℝ)] [cexDoc] 5 (1/2) true none 0 0 "q" []).1 =
      Except.ok { query := "q", answer := "Grounded answer", confidence := 0,
                  citations := search_documents [(1 : ℝ)] [cexDoc] 5 (1/2) none,
                  model_used := "m", processing_time_ms := 0 } := by
  constructor
  · rw [cex_search]
    simp
  · have hne : search_documents [(1 : ℝ)] [cexDoc] 5 (1/2) none ≠ [] := by
      rw [cex_search]
      simp
    simp only [answer_query, if_neg hne, if_true]

/-! ## Claim C7: training-pair extraction -/

/-- C7: the training-pair extraction is a pure scan of the audit trail that
yields one query/answer training example for exactly the entries with event
type "qa_query" and confidence at least the 0.7 minimum — every produced
example comes from such an entry, every such entry produces its example, and
the whole output is the filtered log up to the most-recent-first
reordering. -/
theorem extract_training_data_spec (logs : List AuditEntry) :
    (extract_training_data logs).Perm
      ((logs.filter (fun e => decide (qualifies e))).map toExample) ∧
    (∀ ex ∈ extract_training_data logs, ∃ e ∈ logs,
      e.event_type = "qa_query" ∧ (0.7 : ℝ) ≤ e.confidence ∧ ex = toExample e) ∧
    (∀ e ∈ logs, qualifies e → toExample e ∈ extract_training_data logs) := by
  refine ⟨?_, ?_, ?_⟩
  · unfold extract_training_data
    exact List.Perm.map toExample
      (List.perm_insertionSort (fun a b : AuditEntry => b.timestamp ≤ a.timestamp) _)
  · intro ex hex
    unfold extract_training_data at hex
    rw [List.mem_map] at hex
    obtain ⟨e, he, rfl⟩ := hex
    rw [List.mem_insertionSort, List.mem_filter] at he
    have hq : qualifies e := of_decide_eq_true he.2
    exact ⟨e, he.1, hq.1, hq.2, rfl⟩
  · intro e he hq
    unfold extract_training_data
    rw [List.mem_map]
    refine ⟨e, ?_, rfl⟩
    rw [List.mem_insertionSort, List.mem_filter]
    exact ⟨he, decide_eq_true hq⟩

/-! ## Claim C9: image question filename validation -/

/-- C9: for every filename whose lowercase form does not end in one of the
allowed image extensions, `ask_image_question` fails with an HTTP 400
validation error and makes no external call — the image is never decoded and
the generative model is never invoked. -/
theorem ask_image_question_rejects (modelAnswer filename question user_id : String)
    (h : hasAllowedImageExtension filename = false) :
    ask_image_question modelAnswer filename question user_id =
      (Except.error { status_code := 400,
                      detail := "Invalid file type. Allowed: .jpg, .jpeg, .png, .gif, .bmp, .webp" },
       ([] : List ImageCall)) := by
  unfold ask_image_question
  rw [h]
  simp only [Bool.false_eq_true, if_false]
  rfl

/-- Witness for C9 at the concrete filename "report.txt". -/
theorem ask_image_question_rejects_witness :
    ask_image_question "an answer" "report.txt" "what is this" "user-1" =
      (Except.error { status_code := 400,
                      detail := "Invalid file type. Allowed: .jpg, .jpeg, .png, .gif, .bmp, .webp" },
       ([] : List ImageCall)) :=
  ask_image_question_rejects "an answer" "report.txt" "what is this" "user-1" (by decide)

/-! ## Claim C10: PDF page rendering -/

/-- C10: `_convert_pdf_to_8k_images` produces exactly one image per PDF
page, in page order, each rendered with equal horizontal and vertical zoom
factors of 7680 divided by that page's width — so every output image whose
source page has nonzero width is exactly 7680 pixels wide before rounding —
and `ask_pdf_question` reports the number of converted images as the
response's page count. -/
theorem convert_pdf_to_8k_images_spec (pdf : List PDFPage) :
    (convert_pdf_to_8k_images pdf).length = pdf.length ∧
    (∀ i : ℕ, ∀ p : PDFPage, pdf[i]? = some p →
      (convert_pdf_to_8k_images pdf)[i]? = some (renderPage p) ∧
      (renderPage p).zoom_x = TARGET_WIDTH_8K / p.width ∧
      (renderPage p).zoom_y = (renderPage p).zoom_x ∧
      (p.width ≠ 0 → (renderPage p).width = 7680)) ∧
    (∀ modelAnswer filename question user_id : String, ∀ r : PDFAnswer,
      ask_pdf_question modelAnswer pdf filename question user_id = Except.ok r →
      r.pages = (convert_pdf_to_8k_images pdf).length) := by
  refine ⟨?_, ?_, ?_⟩
  · unfold convert_pdf_to_8k_images
    rw [List.length_map]
  · intro i p hp
    refine ⟨?_, rfl, rfl, ?_⟩
    · unfold convert_pdf_to_8k_images
      rw [List.getElem?_map, hp, Option.map_some']
    · intro hw
      show p.width * (TARGET_WIDTH_8K / p.width) = 7680
      rw [mul_div_assoc', mul_div_cancel_left₀ _ hw]
      rfl
  · intro modelAnswer filename question user_id r hr
    unfold ask_pdf_question at hr
    split at hr
    · have := Except.ok.inj hr
      rw [← this]
    · simp at hr

end

end GenAI
